import Mathlib

/-!
Shallow embedding of the F1-2018 terminal dashboard (`src/main.py`).

Numeric model: Python integers are `ℤ`/`ℕ`, Python floats are idealized as
exact rationals `ℚ` (the only float operations in the program are division
and multiplication by constants); Python `int(...)` truncation toward zero
is `pyInt`; Python `round(x, 2)` (banker's rounding to two decimals) is
`round2`.  Python dicts keyed by car index are modelled as association
lists with insert-at-head and first-match lookup, which matches the
observable dict behaviour (lookup and membership).  Curses drawing calls
are modelled as a list of `DrawOp` operations recording target surface,
position, content and color pair.
-/

namespace F1Dash

/-- Python `int()` on a nonnegative-or-negative rational: truncation toward zero. -/
def pyInt (q : ℚ) : ℤ := if 0 ≤ q then ⌊q⌋ else ⌈q⌉

/-- Round a rational to the nearest integer, ties to even (Python `round` on floats). -/
def roundHalfEven (q : ℚ) : ℤ :=
  let f := ⌊q⌋
  let r := q - (f : ℚ)
  if r < 1/2 then f
  else if 1/2 < r then f + 1
  else if f % 2 = 0 then f else f + 1

/-- Python `round(x, 2)`: banker's rounding to two decimal places. -/
def round2 (q : ℚ) : ℚ := (roundHalfEven (q * 100) : ℚ) / 100

/-- First-match lookup in an association list (models Python dict `d[k]` / `k in d`). -/
def alookup {α : Type} (k : ℕ) : List (ℕ × α) → Option α
  | [] => none
  | (k', v) :: rest => if k' = k then some v else alookup k rest

/-- Insert-at-head (models Python dict assignment `d[k] = v`: later entries shadow). -/
def ainsert {α : Type} (k : ℕ) (v : α) (l : List (ℕ × α)) : List (ℕ × α) :=
  (k, v) :: l

theorem alookup_ainsert_self {α : Type} (k : ℕ) (v : α) (l : List (ℕ × α)) :
    alookup k (ainsert k v l) = some v := by
  simp [alookup, ainsert]

theorem alookup_ainsert_ne {α : Type} (k k' : ℕ) (v : α) (l : List (ℕ × α)) (h : k' ≠ k) :
    alookup k (ainsert k' v l) = alookup k l := by
  simp [alookup, ainsert, h]

/-! ## Data model: packet payload entries (fields as accessed by `main.py`) -/

/-- One car's entry in a Car Telemetry packet (packet id 6). -/
structure CarTelemetryEntry where
  m_speed : ℤ
  m_engineRPM : ℤ
  m_gear : ℤ
  m_tyresSurfaceTemperature : List ℤ
  m_throttle : ℚ
  m_brake : ℚ
  deriving DecidableEq, Repr

/-- The header of a Car Telemetry packet: carries the player car index. -/
structure TelemetryHeader where
  m_playerCarIndex : ℕ
  deriving DecidableEq, Repr

/-- One car's entry in a Motion packet (packet id 0). -/
structure MotionEntry where
  m_gForceLateral : ℚ
  deriving DecidableEq, Repr

/-- One car's entry in a Car Status packet (packet id 7). -/
structure StatusEntry where
  m_tyresDamage : List ℤ
  deriving DecidableEq, Repr

/-- One car's entry in a Car Setup packet (packet id 5). -/
structure SetupEntry where
  m_fuelLoad : ℚ
  deriving DecidableEq, Repr

/-- A `(packet_id, packet)` pair from the telemetry source.  The recognized
packet ids 6 / 0 / 7 / 5 are the four typed constructors; `unrecognized k`
is any pair whose id is none of those (its payload is never inspected). -/
inductive Event where
  | carTelemetry (header : TelemetryHeader) (cars_telemetry_data : ℕ → CarTelemetryEntry)
  | motionPacket (cars_motion_data : ℕ → MotionEntry)
  | statusPacket (cars_status_data : ℕ → StatusEntry)
  | setupPacket (cars_setup_data : ℕ → SetupEntry)
  | unrecognized (packet_id : ℕ)

/-- Is this the primary telemetry packet (id 6)? -/
def Event.isCarTelemetry : Event → Bool
  | .carTelemetry _ _ => true
  | _ => false

/-- Is this a Motion packet (id 0)? -/
def Event.isMotion : Event → Bool
  | .motionPacket _ => true
  | _ => false

/-- Is this a Car Status packet (id 7)? -/
def Event.isStatus : Event → Bool
  | .statusPacket _ => true
  | _ => false

/-- Is this a Car Setup packet (id 5)? -/
def Event.isSetup : Event → Bool
  | .setupPacket _ => true
  | _ => false

/-- The `data` dict of `print_telemetry`: every key optional, since the dict
starts empty and g-force / tire-wear keys are only present when the
corresponding cache had an entry. -/
structure TData where
  engine_speed : Option ℤ := none
  engine_rpm : Option ℤ := none
  gear : Option ℤ := none
  max_rpm : Option ℤ := none
  tire_temperatures : Option (List ℤ) := none
  tire_wear : Option (List ℤ) := none
  throttle : Option ℚ := none
  brake : Option ℚ := none
  g_force : Option ℚ := none
  fuel : Option ℚ := none
  deriving DecidableEq, Repr

/-- Mutable state of `print_telemetry`'s loop: the `data` dict, the tracked
player car index, and the three per-car caches. -/
structure LoopState where
  data : TData := {}
  player_car_index : Option ℕ := none
  motion_data : List (ℕ × MotionEntry) := []
  status_data : List (ℕ × StatusEntry) := []
  car_setup_data : List (ℕ × SetupEntry) := []
  deriving DecidableEq, Repr

/-- The initial state of `print_telemetry` before any packet is processed. -/
def initState : LoopState := {}

/-! ## Renderer: tiers, color pairs, bar gauges, and drawing operations -/

/-- Severity tier driving the color encoding of a gauge or value. -/
inductive Tier where
  | normal
  | warning
  | critical
  deriving DecidableEq, Repr

/-- Color pair chosen for the rpm bar (lines 20-25): pair 4 (magenta) for the
critical tier, pair 3 for warning, pair 2 for normal. -/
def rpmColorPair (rpm : ℤ) : ℕ :=
  if rpm ≥ 12000 then 4 else if rpm ≥ 10000 then 3 else 2

/-- Tier selected by the rpm branch of `draw_rpm_bar` (same branch structure
as `rpmColorPair`, with the pair numbers replaced by their tier names). -/
def rpmTier (rpm : ℤ) : Tier :=
  if rpm ≥ 12000 then .critical else if rpm ≥ 10000 then .warning else .normal

/-- Color pair for a tire temperature line (line 137): pair 2 if `temp ≤ 150`,
pair 5 if `temp ≤ 250`, else pair 3. -/
def tireTempColorPair (temp : ℤ) : ℕ :=
  if temp ≤ 150 then 2 else if temp ≤ 250 then 5 else 3

/-- Tier of a tire temperature (pair 2 = normal, pair 5 = warning, pair 3 = critical). -/
def tireTempTier (temp : ℤ) : Tier :=
  if temp ≤ 150 then .normal else if temp ≤ 250 then .warning else .critical

/-- Color pair for a tire wear line (line 141): pair 3 if `damage > 75`,
pair 5 if `damage > 50`, else pair 2. -/
def tireWearColorPair (damage : ℤ) : ℕ :=
  if damage > 75 then 3 else if damage > 50 then 5 else 2

/-- Tier of a tire wear value (pair 3 = critical, pair 5 = warning, pair 2 = normal). -/
def tireWearTier (damage : ℤ) : Tier :=
  if damage > 75 then .critical else if damage > 50 then .warning else .normal

/-- Content of one `addstr` call, keeping the numbers rather than the
formatted string. -/
inductive TextContent where
  | tooSmallNotice
  | speedText (v : ℤ)
  | gearText (v : ℤ)
  | bracketL
  | bracketR
  | barCell (filled : Bool)
  | rpmText (rpm : ℤ)
  | gForceText (v : ℚ)
  | fuelText (v : ℚ)
  | tireTempText (label : String) (t : ℤ)
  | tireWearText (label : String) (w : ℤ)
  | throttleLabel
  | brakeLabel
  deriving DecidableEq, Repr

/-- One curses drawing operation; `Main` targets `stdscr`, `Win` targets
the `telemetry_win` sub-window created by `draw_telemetry_box`. -/
inductive DrawOp where
  | clearMain
  | addstrMain (y x : ℕ) (t : TextContent) (colorPair : ℕ)
  | refreshMain
  | newwin (nlines ncols begin_y begin_x : ℕ)
  | boxWin
  | addstrWin (y x : ℕ) (t : TextContent) (colorPair : ℕ)
  | refreshWin
  deriving DecidableEq, Repr

/-- `bar_fill = int((rpm / max_rpm) * bar_length)` with `bar_length = 30` (line 18). -/
def rpmBarFill (rpm max_rpm : ℤ) : ℤ :=
  pyInt (((rpm : ℚ) / (max_rpm : ℚ)) * 30)

/-- The fill pattern of the rpm bar: the loop over `range(bar_length)` writes
a filled cell exactly when `i < bar_fill` (lines 28-32). -/
def rpmBarCells (rpm max_rpm : ℤ) : List Bool :=
  (List.range 30).map (fun (i : ℕ) => decide ((i : ℤ) < rpmBarFill rpm max_rpm))

/-- Number of filled cells in a bar fill pattern. -/
def countFilled (cells : List Bool) : ℕ := (cells.filter id).length

/-- `draw_rpm_bar` (lines 6-34): bracket, 30 cells colored by the rpm tier,
bracket, numeric readout. -/
def draw_rpm_bar (y x : ℕ) (rpm max_rpm : ℤ) : List DrawOp :=
  let color := rpmColorPair rpm
  [.addstrWin y x .bracketL 1]
  ++ (rpmBarCells rpm max_rpm).enum.map
       (fun p => .addstrWin y (x + 1 + p.1) (.barCell p.2) color)
  ++ [.addstrWin y (x + 1 + 30) .bracketR 1,
      .addstrWin y (x + 1 + 30 + 2) (.rpmText rpm) 1]

/-- `draw_brake_bar` (lines 36-60): vertical 10-cell gauge, silent no-op when
the window is too small for it at `(y, x)`. -/
def draw_brake_bar (height width y x : ℕ) (brake : ℚ) : List DrawOp :=
  let bar_fill := pyInt (brake / 100 * 10)
  if y + 10 ≥ height ∨ x + 2 ≥ width then []
  else
    [.addstrWin y x .brakeLabel 1]
    ++ (List.range 10).map (fun (i : ℕ) =>
         .addstrWin (y + 10 - i - 1) (x + 7) (.barCell (decide ((i : ℤ) < bar_fill))) 3)

/-- `draw_accel_bar` (lines 63-87): vertical 10-cell throttle gauge, silent
no-op when the window is too small for it at `(y, x)`. -/
def draw_accel_bar (height width y x : ℕ) (throttle : ℚ) : List DrawOp :=
  let bar_fill := pyInt (throttle / 100 * 10)
  if y + 10 ≥ height ∨ x + 2 ≥ width then []
  else
    [.addstrWin y x .throttleLabel 1]
    ++ (List.range 10).map (fun (i : ℕ) =>
         .addstrWin (y + 10 - i - 1) (x + 10) (.barCell (decide ((i : ℤ) < bar_fill))) 2)

/-- Result of one `draw_telemetry_box` call: the returned boolean and the
sequence of drawing operations performed. -/
structure RenderResult where
  ok : Bool
  ops : List DrawOp
  deriving DecidableEq, Repr

/-- `tire_labels = ["RL", "RR", "FL", "FR"]` (line 135). -/
def tire_labels : List String := ["RL", "RR", "FL", "FR"]

/-- `draw_telemetry_box` (lines 90-151).  The size check uses `stdscr`'s
dimensions; on failure only the notice is written and `False` returned.
On success a 15×75 window is created at offset (1, 2) and all panel content
drawn into it; the label lookup `tire_labels[i]` is total here via `getD`
(the program only ever passes four-entry lists). -/
def draw_telemetry_box (height width : ℕ) (data : TData) : RenderResult :=
  if width < 75 ∨ height < 15 then
    { ok := false,
      ops := [.clearMain, .addstrMain 0 0 .tooSmallNotice 1, .refreshMain] }
  else
    let engine_speed := data.engine_speed.getD 0
    let gear := data.gear.getD 0
    let engine_rpm := data.engine_rpm.getD 0
    let max_rpm := data.max_rpm.getD 15000
    let tire_temperatures := data.tire_temperatures.getD [0, 0, 0, 0]
    let tire_wear := data.tire_wear.getD [0, 0, 0, 0]
    let throttle := data.throttle.getD 0
    let g_force := data.g_force.getD 0
    let brake := data.brake.getD 0
    let fuel := round2 (data.fuel.getD 0)
    { ok := true,
      ops :=
        [.clearMain, .newwin 15 75 1 2, .boxWin,
         .addstrWin 1 2 (.speedText engine_speed) 1,
         .addstrWin 2 2 (.gearText gear) 1]
        ++ draw_rpm_bar 3 2 engine_rpm max_rpm
        ++ [.addstrWin 6 2 (.gForceText g_force) 1,
            .addstrWin 7 2 (.fuelText fuel) 1]
        ++ tire_temperatures.enum.map (fun p =>
             .addstrWin (9 + p.1) 2 (.tireTempText (tire_labels.getD p.1 "") p.2)
               (tireTempColorPair p.2))
        ++ tire_wear.enum.map (fun p =>
             .addstrWin (9 + p.1) 30 (.tireWearText (tire_labels.getD p.1 "") p.2)
               (tireWearColorPair p.2))
        ++ draw_accel_bar 15 75 3 50 throttle
        ++ draw_brake_bar 15 75 3 63 brake
        ++ [.refreshWin] }

/-! ## Aggregator: the body of the packet dispatch in `print_telemetry` -/

/-- The `data` dict built by the Car Telemetry branch (lines 183-214): the
packet's own fields for speed/rpm/gear/temps/throttle/brake, the previous
dict's fuel as the initial fuel (line 192), then the g-force / tire-wear /
fuel entries overlaid from whichever caches hold the player car index. -/
def buildSnapshot (s : LoopState) (header : TelemetryHeader)
    (cars_telemetry_data : ℕ → CarTelemetryEntry) : TData :=
  let player_car_index := header.m_playerCarIndex
  let e := cars_telemetry_data player_car_index
  let fuel := s.data.fuel.getD 0
  let d0 : TData :=
    { engine_speed := some e.m_speed
      engine_rpm := some e.m_engineRPM
      gear := some e.m_gear
      max_rpm := some 15000
      tire_temperatures := some e.m_tyresSurfaceTemperature
      throttle := some e.m_throttle
      brake := some e.m_brake
      fuel := some fuel }
  let d1 := match alookup player_car_index s.motion_data with
    | some m => { d0 with g_force := some m.m_gForceLateral }
    | none => d0
  let d2 := match alookup player_car_index s.status_data with
    | some st => { d1 with tire_wear := some st.m_tyresDamage }
    | none => d1
  let d3 := match alookup player_car_index s.car_setup_data with
    | some cs => { d2 with fuel := some cs.m_fuelLoad }
    | none => d2
  d3

/-- One iteration of the packet dispatch (lines 181-235): updates the loop
state and, for a Car Telemetry packet, returns the freshly built `data`
dict (the Snapshot handed to the renderer).  Motion/Status/Setup packets
update their cache only when a player car index is already established;
an unrecognized packet id matches no branch and does nothing. -/
def processPacket (s : LoopState) : Event → LoopState × Option TData
  | .carTelemetry header cars_telemetry_data =>
    let d := buildSnapshot s header cars_telemetry_data
    ({ s with data := d, player_car_index := some header.m_playerCarIndex }, some d)
  | .motionPacket cars_motion_data =>
    match s.player_car_index with
    | some idx =>
      ({ s with motion_data := ainsert idx (cars_motion_data idx) s.motion_data }, none)
    | none => (s, none)
  | .statusPacket cars_status_data =>
    match s.player_car_index with
    | some idx =>
      ({ s with status_data := ainsert idx (cars_status_data idx) s.status_data }, none)
    | none => (s, none)
  | .setupPacket cars_setup_data =>
    match s.player_car_index with
    | some idx =>
      ({ s with car_setup_data := ainsert idx (cars_setup_data idx) s.car_setup_data }, none)
    | none => (s, none)
  | .unrecognized _ => (s, none)

/-- Fold `processPacket` over a packet list, collecting the Snapshots built
for Car Telemetry packets (render-independent view of the aggregator). -/
def ingestAll (s : LoopState) : List Event → LoopState × List TData
  | [] => (s, [])
  | e :: rest =>
    match processPacket s e with
    | (s1, none) => ingestAll s1 rest
    | (s1, some d) =>
      let r := ingestAll s1 rest
      (r.1, d :: r.2)

/-- Outcome of draining one batch of packets in the frame loop. -/
structure DrainResult where
  state : LoopState
  snaps : List TData
  stopped : Bool
  deriving DecidableEq, Repr

/-- The frame loop's `for packet_id, packet in get_telemetry()` body
(lines 180-235): each Car Telemetry packet is rendered immediately, and a
renderer failure returns from `print_telemetry` at once, leaving the
remaining packets unprocessed. -/
def drainEvents (height width : ℕ) (s : LoopState) : List Event → DrainResult
  | [] => { state := s, snaps := [], stopped := false }
  | e :: rest =>
    match processPacket s e with
    | (s1, none) => drainEvents height width s1 rest
    | (s1, some d) =>
      if (draw_telemetry_box height width d).ok then
        let r := drainEvents height width s1 rest
        { r with snaps := d :: r.snaps }
      else { state := s1, snaps := [d], stopped := true }

/-! ## Concrete packets and states for closed-instance theorems -/

/-- A fixed per-car telemetry payload (every car reports the same entry). -/
def carsTel (_ : ℕ) : CarTelemetryEntry :=
  { m_speed := 250, m_engineRPM := 11000, m_gear := 5,
    m_tyresSurfaceTemperature := [100, 100, 100, 100],
    m_throttle := 80, m_brake := 0 }

/-- A concrete Car Telemetry packet whose header tracks car 0. -/
def telemetryEv0 : Event := .carTelemetry { m_playerCarIndex := 0 } carsTel

/-- The Snapshot `telemetryEv0` builds from the empty initial state. -/
def snap0 : TData :=
  { engine_speed := some 250, engine_rpm := some 11000, gear := some 5,
    max_rpm := some 15000, tire_temperatures := some [100, 100, 100, 100],
    throttle := some 80, brake := some 0, fuel := some 0 }

/-- The loop state after `telemetryEv0` is processed from the initial state. -/
def state0 : LoopState := { data := snap0, player_car_index := some 0 }

/-- A Motion packet reporting lateral g-force 5 for every car. -/
def motionEv5 : Event := .motionPacket (fun _ => { m_gForceLateral := 5 })

/-- A Car Status packet reporting fixed tire wear for every car. -/
def statusEv : Event := .statusPacket (fun _ => { m_tyresDamage := [10, 20, 30, 40] })

/-- A Car Setup packet reporting fuel load 42 for every car. -/
def setupEv42 : Event := .setupPacket (fun _ => { m_fuelLoad := 42 })

/-- State after tracking car 0, caching its fuel-42 Setup packet, and building
one more Snapshot (so the `data` dict itself holds fuel 42). -/
def stateFuel42 : LoopState :=
  (ingestAll initState [telemetryEv0, setupEv42, telemetryEv0]).1

/-- A telemetry header tracking car 1. -/
def header1 : TelemetryHeader := { m_playerCarIndex := 1 }

/-- Packet constraint for the fuel-stickiness claim: not a Setup packet, and
any Car Telemetry packet still carries tracked index `idx` in its header. -/
def keepsEntityNoSetup (idx : ℕ) : Event → Bool
  | .carTelemetry header _ => header.m_playerCarIndex == idx
  | .setupPacket _ => false
  | _ => true

/-! ## Helper lemmas about the snapshot builder -/

theorem buildSnapshot_fuel_of_setup (s : LoopState) (header : TelemetryHeader)
    (cars : ℕ → CarTelemetryEntry) (cs : SetupEntry)
    (hc : alookup header.m_playerCarIndex s.car_setup_data = some cs) :
    (buildSnapshot s header cars).fuel = some cs.m_fuelLoad := by
  cases hmo : alookup header.m_playerCarIndex s.motion_data <;>
    cases hst : alookup header.m_playerCarIndex s.status_data <;>
      simp [buildSnapshot, hmo, hst, hc]

theorem buildSnapshot_fuel_of_no_setup (s : LoopState) (header : TelemetryHeader)
    (cars : ℕ → CarTelemetryEntry)
    (hc : alookup header.m_playerCarIndex s.car_setup_data = none) :
    (buildSnapshot s header cars).fuel = some (s.data.fuel.getD 0) := by
  cases hmo : alookup header.m_playerCarIndex s.motion_data <;>
    cases hst : alookup header.m_playerCarIndex s.status_data <;>
      simp [buildSnapshot, hmo, hst, hc]

theorem buildSnapshot_g_force_of_no_motion (s : LoopState) (header : TelemetryHeader)
    (cars : ℕ → CarTelemetryEntry)
    (hm : alookup header.m_playerCarIndex s.motion_data = none) :
    (buildSnapshot s header cars).g_force = none := by
  cases hst : alookup header.m_playerCarIndex s.status_data <;>
    cases hc : alookup header.m_playerCarIndex s.car_setup_data <;>
      simp [buildSnapshot, hm, hst, hc]

theorem processPacket_carTelemetry (s : LoopState) (header : TelemetryHeader)
    (cars : ℕ → CarTelemetryEntry) :
    processPacket s (.carTelemetry header cars) =
      ({ s with data := buildSnapshot s header cars,
                player_car_index := some header.m_playerCarIndex },
       some (buildSnapshot s header cars)) := rfl

/-! ## Claim theorems -/

theorem rpmBarFill_eq_of_exact (rpm max_rpm n : ℤ) (hn : 0 ≤ n)
    (hval : ((rpm : ℚ) / (max_rpm : ℚ)) * 30 = (n : ℚ)) :
    rpmBarFill rpm max_rpm = n := by
  unfold rpmBarFill pyInt
  rw [hval, if_pos (show (0 : ℚ) ≤ (n : ℚ) by exact_mod_cast hn)]
  exact Int.floor_intCast n

/-- C6: for all rpm ≥ 0 with max_rpm = 15000 the rpm bar's fill count equals
floor(rpm / max_rpm × 30); rpm = 15000 yields a fully filled 30-cell bar and
rpm = 0 an empty bar. -/
theorem rpm_bar_fill_is_floor (rpm : ℤ) (h : 0 ≤ rpm) :
    rpmBarFill rpm 15000 = rpm * 30 / 15000 ∧
    countFilled (rpmBarCells 15000 15000) = 30 ∧
    countFilled (rpmBarCells 0 15000) = 0 := by
  have h30 : rpmBarFill 15000 15000 = 30 :=
    rpmBarFill_eq_of_exact _ _ 30 (by norm_num) (by push_cast; norm_num)
  have h0 : rpmBarFill 0 15000 = 0 :=
    rpmBarFill_eq_of_exact _ _ 0 le_rfl (by push_cast; norm_num)
  refine ⟨?_, ?_, ?_⟩
  · have hnn : 0 ≤ ((rpm : ℚ) / ((15000 : ℤ) : ℚ)) * 30 := by
      have hr : (0 : ℚ) ≤ (rpm : ℚ) := by exact_mod_cast h
      positivity
    have hq : ((rpm : ℚ) / ((15000 : ℤ) : ℚ)) * 30 =
        ((rpm * 30 : ℤ) : ℚ) / ((15000 : ℕ) : ℚ) := by
      push_cast
      ring
    unfold rpmBarFill pyInt
    rw [if_pos hnn, hq, Rat.floor_intCast_div_natCast]
    norm_num
  · simp only [rpmBarCells, h30]
    decide
  · simp only [rpmBarCells, h0]
    decide

theorem rpm_bar_fill_is_floor_witness :
    0 ≤ (7500 : ℤ) ∧
    (rpmBarFill 7500 15000 = 7500 * 30 / 15000 ∧
     countFilled (rpmBarCells 15000 15000) = 30 ∧
     countFilled (rpmBarCells 0 15000) = 0) :=
  ⟨by decide, rpm_bar_fill_is_floor 7500 (by decide)⟩

/-- C7: the rpm tier boundaries are closed/open exactly as specified:
9999 is normal, 10000 and 11999 warning, 12000 critical; in general
rpm ≥ 12000 is critical, 10000 ≤ rpm < 12000 warning, rpm < 10000 normal. -/
theorem rpm_tier_boundaries (rpm : ℤ) :
    (rpmTier 9999 = .normal ∧ rpmTier 10000 = .warning ∧
     rpmTier 11999 = .warning ∧ rpmTier 12000 = .critical) ∧
    (rpm ≥ 12000 → rpmTier rpm = .critical) ∧
    (10000 ≤ rpm ∧ rpm < 12000 → rpmTier rpm = .warning) ∧
    (rpm < 10000 → rpmTier rpm = .normal) := by
  refine ⟨by decide, fun h => ?_, fun h => ?_, fun h => ?_⟩ <;>
    unfold rpmTier <;> split_ifs <;> first | rfl | (exfalso; omega)

theorem rpm_tier_boundaries_witness :
    rpmTier 13000 = .critical ∧ rpmTier 10500 = .warning ∧ rpmTier 9000 = .normal :=
  ⟨(rpm_tier_boundaries 13000).2.1 (by decide),
   (rpm_tier_boundaries 10500).2.2.1 (by decide),
   (rpm_tier_boundaries 9000).2.2.2 (by decide)⟩

/-- C8: wheel wear tiers are normal for wear ≤ 50, warning for 50 < wear ≤ 75,
critical for wear > 75, and temperature tiers are normal for temp ≤ 150,
warning for 150 < temp ≤ 250, critical for temp > 250, with the stated
boundary values. -/
theorem tire_tier_boundaries (wear temp : ℤ) :
    (tireWearTier 50 = .normal ∧ tireWearTier 51 = .warning ∧
     tireWearTier 76 = .critical) ∧
    (wear ≤ 50 → tireWearTier wear = .normal) ∧
    (50 < wear ∧ wear ≤ 75 → tireWearTier wear = .warning) ∧
    (75 < wear → tireWearTier wear = .critical) ∧
    (tireTempTier 150 = .normal ∧ tireTempTier 151 = .warning ∧
     tireTempTier 251 = .critical) ∧
    (temp ≤ 150 → tireTempTier temp = .normal) ∧
    (150 < temp ∧ temp ≤ 250 → tireTempTier temp = .warning) ∧
    (250 < temp → tireTempTier temp = .critical) := by
  refine ⟨by decide, fun h => ?_, fun h => ?_, fun h => ?_, by decide,
    fun h => ?_, fun h => ?_, fun h => ?_⟩ <;>
    simp only [tireWearTier, tireTempTier] <;> split_ifs <;>
      first | rfl | (exfalso; omega)

theorem tire_tier_boundaries_witness :
    tireWearTier 40 = .normal ∧ tireWearTier 60 = .warning ∧
    tireWearTier 90 = .critical ∧ tireTempTier 100 = .normal ∧
    tireTempTier 200 = .warning ∧ tireTempTier 300 = .critical :=
  ⟨(tire_tier_boundaries 40 0).2.1 (by decide),
   (tire_tier_boundaries 60 0).2.2.1 (by decide),
   (tire_tier_boundaries 90 0).2.2.2.1 (by decide),
   (tire_tier_boundaries 0 100).2.2.2.2.2.1 (by decide),
   (tire_tier_boundaries 0 200).2.2.2.2.2.2.1 (by decide),
   (tire_tier_boundaries 0 300).2.2.2.2.2.2.2 (by decide)⟩

/-- C3 counterexample: rpm = 30000 is strictly above max_rpm = 15000, yet the
number of filled cells drawn by the loop is exactly 30 — it does not exceed
the fixed 30-cell bar width. -/
theorem rpm_bar_no_visual_overfill :
    (15000 : ℤ) < 30000 ∧
    countFilled (rpmBarCells 30000 15000) = 30 ∧
    ¬ 30 < countFilled (rpmBarCells 30000 15000) := by
  have h60 : rpmBarFill 30000 15000 = 60 :=
    rpmBarFill_eq_of_exact _ _ 60 (by norm_num) (by push_cast; norm_num)
  refine ⟨by decide, ?_, ?_⟩ <;> simp only [rpmBarCells, h60] <;> decide

/-- C3 (amended): for rpm strictly above max_rpm = 15000 the computed
`bar_fill` is not clamped (it reaches 31 already at rpm = 15500), but the
drawing loop iterates only the 30 bar cells, so all 30 drawn cells are filled
and the filled cells drawn never exceed the bar width. -/
theorem rpm_bar_fill_unclamped (rpm : ℤ) (h : 15000 < rpm) :
    30 ≤ rpmBarFill rpm 15000 ∧
    countFilled (rpmBarCells rpm 15000) = 30 ∧
    30 < rpmBarFill 15500 15000 := by
  have h31 : rpmBarFill 15500 15000 = 31 :=
    rpmBarFill_eq_of_exact _ _ 31 (by norm_num) (by push_cast; norm_num)
  have hfill : 30 ≤ rpmBarFill rpm 15000 := by
    have hq : (30 : ℚ) ≤ ((rpm : ℚ) / ((15000 : ℤ) : ℚ)) * 30 := by
      have h0 : (15000 : ℚ) ≤ (rpm : ℚ) := by exact_mod_cast h.le
      have he : ((rpm : ℚ) / ((15000 : ℤ) : ℚ)) * 30 = (rpm : ℚ) * (1 / 500) := by
        push_cast
        ring
      rw [he]
      linarith
    have hnn : 0 ≤ ((rpm : ℚ) / ((15000 : ℤ) : ℚ)) * 30 := le_trans (by norm_num) hq
    unfold rpmBarFill pyInt
    rw [if_pos hnn]
    exact Int.le_floor.mpr (by exact_mod_cast hq)
  refine ⟨hfill, ?_, by rw [h31]; decide⟩
  have hcells : rpmBarCells rpm 15000 = List.replicate 30 true := by
    rw [List.eq_replicate_iff]
    refine ⟨by simp only [rpmBarCells, List.length_map, List.length_range], ?_⟩
    intro b hb
    simp only [rpmBarCells, List.mem_map, List.mem_range] at hb
    obtain ⟨i, hi, rfl⟩ := hb
    simp only [decide_eq_true_eq]
    have hi30 : (i : ℤ) < 30 := by exact_mod_cast hi
    omega
  rw [countFilled, hcells]
  decide

theorem rpm_bar_fill_unclamped_witness :
    (15000 : ℤ) < 15500 ∧
    (30 ≤ rpmBarFill 15500 15000 ∧
     countFilled (rpmBarCells 15500 15000) = 30 ∧
     30 < rpmBarFill 15500 15000) :=
  ⟨by decide, rpm_bar_fill_unclamped 15500 (by decide)⟩

/-- C4: for every drawing surface of height ≥ 15 and width ≥ 75,
`draw_telemetry_box` returns success, creates and boxes the 15×75 panel at
its fixed offset (1, 2), flushes the panel window, and never writes the
too-small notice (the error branch is not reached). -/
theorem draw_telemetry_box_success (height width : ℕ) (data : TData)
    (hh : 15 ≤ height) (hw : 75 ≤ width) :
    (draw_telemetry_box height width data).ok = true ∧
    DrawOp.newwin 15 75 1 2 ∈ (draw_telemetry_box height width data).ops ∧
    DrawOp.boxWin ∈ (draw_telemetry_box height width data).ops ∧
    DrawOp.refreshWin ∈ (draw_telemetry_box height width data).ops ∧
    DrawOp.addstrMain 0 0 .tooSmallNotice 1 ∉ (draw_telemetry_box height width data).ops := by
  have hcond : ¬ (width < 75 ∨ height < 15) := by omega
  unfold draw_telemetry_box
  rw [if_neg hcond]
  refine ⟨rfl, by simp, by simp, by simp, ?_⟩
  simp [draw_rpm_bar, draw_accel_bar, draw_brake_bar]

theorem draw_telemetry_box_success_witness :
    ((15 : ℕ) ≤ 15 ∧ (75 : ℕ) ≤ 80) ∧
    ((draw_telemetry_box 15 80 snap0).ok = true ∧
     DrawOp.newwin 15 75 1 2 ∈ (draw_telemetry_box 15 80 snap0).ops ∧
     DrawOp.boxWin ∈ (draw_telemetry_box 15 80 snap0).ops ∧
     DrawOp.refreshWin ∈ (draw_telemetry_box 15 80 snap0).ops ∧
     DrawOp.addstrMain 0 0 .tooSmallNotice 1 ∉ (draw_telemetry_box 15 80 snap0).ops) :=
  ⟨⟨by decide, by decide⟩, draw_telemetry_box_success 15 80 snap0 (by decide) (by decide)⟩

/-- C5: on every surface smaller than the fixed 75×15 minimum,
`draw_telemetry_box` writes only the too-small notice (no panel content) and
returns failure, and the frame loop, having rendered a Snapshot on such a
surface, stops immediately, leaving the remaining packets unprocessed. -/
theorem draw_telemetry_box_too_small (height width : ℕ) (s s1 : LoopState)
    (e : Event) (rest : List Event) (d : TData)
    (hsize : width < 75 ∨ height < 15)
    (hstep : processPacket s e = (s1, some d)) :
    (draw_telemetry_box height width d).ok = false ∧
    (draw_telemetry_box height width d).ops =
      [.clearMain, .addstrMain 0 0 .tooSmallNotice 1, .refreshMain] ∧
    drainEvents height width s (e :: rest) =
      { state := s1, snaps := [d], stopped := true } := by
  have hok : (draw_telemetry_box height width d).ok = false := by
    unfold draw_telemetry_box
    rw [if_pos hsize]
  have hops : (draw_telemetry_box height width d).ops =
      [.clearMain, .addstrMain 0 0 .tooSmallNotice 1, .refreshMain] := by
    unfold draw_telemetry_box
    rw [if_pos hsize]
  refine ⟨hok, hops, ?_⟩
  simp [drainEvents, hstep, hok]

theorem draw_telemetry_box_too_small_witness :
    ((100 : ℕ) < 75 ∨ (10 : ℕ) < 15) ∧
    ((draw_telemetry_box 10 100 snap0).ok = false ∧
     (draw_telemetry_box 10 100 snap0).ops =
       [.clearMain, .addstrMain 0 0 .tooSmallNotice 1, .refreshMain] ∧
     drainEvents 10 100 initState [telemetryEv0, motionEv5] =
       { state := state0, snaps := [snap0], stopped := true }) :=
  ⟨by decide,
   draw_telemetry_box_too_small 10 100 initState state0 telemetryEv0 [motionEv5] snap0
     (by decide) rfl⟩

/-- C1 counterexample: a Motion packet (lateral g-force 5) before any Car
Telemetry packet produces no Snapshot, and the Snapshot built by the first
Car Telemetry packet afterward renders g-force 0, not 5: the early Motion
packet is not reflected. -/
theorem early_motion_not_reflected :
    (ingestAll initState [motionEv5]).2 = [] ∧
    (ingestAll initState [motionEv5, telemetryEv0]).2.map (fun d => d.g_force.getD 0) =
      [0] ∧
    (0 : ℚ) ≠ 5 := by
  refine ⟨rfl, rfl, by norm_num⟩

/-- C1 (amended): a Motion packet arriving before any Car Telemetry packet
produces no Snapshot and is dropped without effect (no player car index
exists yet to key the cache), so the Snapshot built by the first Car
Telemetry packet afterward has no g-force entry and the renderer falls back
to the default g-force 0 — it does not reflect the earlier Motion packet. -/
theorem early_motion_dropped (cars_motion : ℕ → MotionEntry)
    (header : TelemetryHeader) (cars_telemetry : ℕ → CarTelemetryEntry) :
    processPacket initState (.motionPacket cars_motion) = (initState, none) ∧
    (processPacket initState (.carTelemetry header cars_telemetry)).2.bind TData.g_force =
      none ∧
    (processPacket initState (.carTelemetry header cars_telemetry)).2.map
      (fun d => d.g_force.getD 0) = some 0 := by
  have hg : (buildSnapshot initState header cars_telemetry).g_force = none :=
    buildSnapshot_g_force_of_no_motion initState header cars_telemetry rfl
  refine ⟨rfl, ?_, ?_⟩ <;> simp [processPacket_carTelemetry, hg]

theorem fuel_sticky_aux (idx : ℕ) (f : ℚ) (events : List Event) :
    ∀ s : LoopState,
      alookup idx s.car_setup_data = some { m_fuelLoad := f } →
      (∀ e ∈ events, keepsEntityNoSetup idx e = true) →
      List.Forall (fun d => d.fuel = some f) (ingestAll s events).2 ∧
      alookup idx (ingestAll s events).1.car_setup_data = some { m_fuelLoad := f } := by
  induction events with
  | nil =>
    intro s hc _
    exact ⟨by simp [ingestAll, List.Forall], by simpa [ingestAll] using hc⟩
  | cons e rest ih =>
    intro s hc hall
    have he := hall e (List.mem_cons_self e rest)
    have hrest : ∀ e' ∈ rest, keepsEntityNoSetup idx e' = true :=
      fun e' h' => hall e' (List.mem_cons_of_mem e h')
    cases e with
    | carTelemetry header cars =>
      have hidx : header.m_playerCarIndex = idx := by
        simpa [keepsEntityNoSetup] using he
      have hfuel : (buildSnapshot s header cars).fuel = some f :=
        buildSnapshot_fuel_of_setup s header cars _ (by rw [hidx]; exact hc)
      obtain ⟨h1, h2⟩ := ih
        { s with data := buildSnapshot s header cars,
                 player_car_index := some header.m_playerCarIndex }
        hc hrest
      simp only [ingestAll, processPacket_carTelemetry]
      exact ⟨(List.forall_cons _ _ _).mpr ⟨hfuel, h1⟩, h2⟩
    | motionPacket cars =>
      cases hp : s.player_car_index with
      | none =>
        simp only [ingestAll, processPacket, hp]
        exact ih s hc hrest
      | some j =>
        simp only [ingestAll, processPacket, hp]
        exact ih { s with player_car_index := some j,
                          motion_data := ainsert j (cars j) s.motion_data } hc hrest
    | statusPacket cars =>
      cases hp : s.player_car_index with
      | none =>
        simp only [ingestAll, processPacket, hp]
        exact ih s hc hrest
      | some j =>
        simp only [ingestAll, processPacket, hp]
        exact ih { s with player_car_index := some j,
                          status_data := ainsert j (cars j) s.status_data } hc hrest
    | setupPacket cars =>
      simp [keepsEntityNoSetup] at he
    | unrecognized k =>
      simp only [ingestAll, processPacket]
      exact ih s hc hrest

/-- C2: fuel is sticky: after a Setup packet arriving while entity `idx` is
tracked (which caches fuel for `idx`), every Snapshot built by a later Car
Telemetry packet for that same entity, with no intervening Setup packet,
carries that same fuel load. -/
theorem fuel_sticky (s : LoopState) (idx : ℕ) (cars_setup : ℕ → SetupEntry)
    (events : List Event)
    (hpci : s.player_car_index = some idx)
    (hev : ∀ e ∈ events, keepsEntityNoSetup idx e = true) :
    List.Forall (fun d => d.fuel = some (cars_setup idx).m_fuelLoad)
      (ingestAll (processPacket s (.setupPacket cars_setup)).1 events).2 := by
  have hc : alookup idx (processPacket s (.setupPacket cars_setup)).1.car_setup_data =
      some { m_fuelLoad := (cars_setup idx).m_fuelLoad } := by
    simp only [processPacket, hpci]
    simpa using alookup_ainsert_self idx (cars_setup idx) s.car_setup_data
  exact (fuel_sticky_aux idx (cars_setup idx).m_fuelLoad events _ hc hev).1

theorem fuel_sticky_witness :
    state0.player_car_index = some 0 ∧
    List.Forall (fun d => d.fuel = some 42)
      (ingestAll (processPacket state0 setupEv42).1 [motionEv5, telemetryEv0]).2 := by
  refine ⟨rfl, ?_⟩
  have h := fuel_sticky state0 0 (fun _ => { m_fuelLoad := 42 })
    [motionEv5, telemetryEv0] rfl ?_
  · exact h
  · intro e hme
    simp only [List.mem_cons, List.not_mem_nil, or_false] at hme
    rcases hme with rfl | rfl <;> rfl

/-- C9: a Snapshot is emitted exactly on Car Telemetry packets; a Motion /
Status / Setup packet emits no Snapshot and changes at most its own cache
(the other two caches, the tracked index and the `data` dict are untouched);
an unrecognized packet changes nothing and emits nothing. -/
theorem snapshot_only_on_primary (s : LoopState) (ev : Event) :
    ((processPacket s ev).2.isSome = ev.isCarTelemetry) ∧
    (ev.isMotion = true →
      (processPacket s ev).1.status_data = s.status_data ∧
      (processPacket s ev).1.car_setup_data = s.car_setup_data ∧
      (processPacket s ev).1.player_car_index = s.player_car_index ∧
      (processPacket s ev).1.data = s.data) ∧
    (ev.isStatus = true →
      (processPacket s ev).1.motion_data = s.motion_data ∧
      (processPacket s ev).1.car_setup_data = s.car_setup_data ∧
      (processPacket s ev).1.player_car_index = s.player_car_index ∧
      (processPacket s ev).1.data = s.data) ∧
    (ev.isSetup = true →
      (processPacket s ev).1.motion_data = s.motion_data ∧
      (processPacket s ev).1.status_data = s.status_data ∧
      (processPacket s ev).1.player_car_index = s.player_car_index ∧
      (processPacket s ev).1.data = s.data) ∧
    (∀ k, ev = .unrecognized k → processPacket s ev = (s, none)) := by
  cases ev with
  | carTelemetry header cars =>
    simp [processPacket_carTelemetry, Event.isCarTelemetry, Event.isMotion,
      Event.isStatus, Event.isSetup]
  | motionPacket cars =>
    cases hp : s.player_car_index <;>
      simp [processPacket, hp, Event.isCarTelemetry, Event.isMotion,
        Event.isStatus, Event.isSetup]
  | statusPacket cars =>
    cases hp : s.player_car_index <;>
      simp [processPacket, hp, Event.isCarTelemetry, Event.isMotion,
        Event.isStatus, Event.isSetup]
  | setupPacket cars =>
    cases hp : s.player_car_index <;>
      simp [processPacket, hp, Event.isCarTelemetry, Event.isMotion,
        Event.isStatus, Event.isSetup]
  | unrecognized k =>
    simp [processPacket, Event.isCarTelemetry, Event.isMotion,
      Event.isStatus, Event.isSetup]

theorem snapshot_only_on_primary_witness :
    ((processPacket state0 motionEv5).1.status_data = state0.status_data ∧
     (processPacket state0 motionEv5).1.car_setup_data = state0.car_setup_data ∧
     (processPacket state0 motionEv5).1.player_car_index = state0.player_car_index ∧
     (processPacket state0 motionEv5).1.data = state0.data) ∧
    ((processPacket state0 statusEv).1.motion_data = state0.motion_data ∧
     (processPacket state0 statusEv).1.car_setup_data = state0.car_setup_data ∧
     (processPacket state0 statusEv).1.player_car_index = state0.player_car_index ∧
     (processPacket state0 statusEv).1.data = state0.data) ∧
    ((processPacket state0 setupEv42).1.motion_data = state0.motion_data ∧
     (processPacket state0 setupEv42).1.status_data = state0.status_data ∧
     (processPacket state0 setupEv42).1.player_car_index = state0.player_car_index ∧
     (processPacket state0 setupEv42).1.data = state0.data) ∧
    processPacket state0 (.unrecognized 3) = (state0, none) :=
  ⟨(snapshot_only_on_primary state0 motionEv5).2.1 rfl,
   (snapshot_only_on_primary state0 statusEv).2.2.1 rfl,
   (snapshot_only_on_primary state0 setupEv42).2.2.2.1 rfl,
   (snapshot_only_on_primary state0 (.unrecognized 3)).2.2.2.2 3 rfl⟩

/-- C10: fuel carry-over is not entity-keyed: when the tracked identifier
changes between two Car Telemetry packets and the Setup cache has no entry
for the new identifier, the new entity's Snapshot carries the previous
entity's fuel value from the old `data` dict instead of the zero default. -/
theorem fuel_carryover_not_entity_keyed (s : LoopState) (header : TelemetryHeader)
    (cars : ℕ → CarTelemetryEntry) (idx1 : ℕ)
    (_hprev : s.player_car_index = some idx1)
    (_hchange : header.m_playerCarIndex ≠ idx1)
    (hnosetup : alookup header.m_playerCarIndex s.car_setup_data = none) :
    (processPacket s (.carTelemetry header cars)).2.bind TData.fuel =
      some (s.data.fuel.getD 0) := by
  rw [processPacket_carTelemetry]
  simpa using buildSnapshot_fuel_of_no_setup s header cars hnosetup

theorem fuel_carryover_not_entity_keyed_witness :
    stateFuel42.player_car_index = some 0 ∧
    header1.m_playerCarIndex ≠ 0 ∧
    alookup header1.m_playerCarIndex stateFuel42.car_setup_data = none ∧
    (processPacket stateFuel42 (.carTelemetry header1 carsTel)).2.bind TData.fuel =
      some 42 ∧
    (42 : ℚ) ≠ 0 := by
  refine ⟨rfl, by decide, rfl, ?_, by norm_num⟩
  exact fuel_carryover_not_entity_keyed stateFuel42 header1 carsTel 0 rfl (by decide) rfl

end F1Dash
